import Mathlib

/-!
Verification development for the solo-ui component-scaffolding CLI
(entry point `packages/cli/src/index.ts`).

The CLI exposes three commands — `init`, `add <component>` and `list` —
each a linear pipeline over a target project directory and an ephemeral
scratch directory `.solo-ui-temp` holding a depth-1 clone of the remote
component catalog.  The embedding below models the filesystem state the
program touches (the target project's manifest, config files, global
stylesheet and components directory, plus the scratch directory) and
each pipeline step as an explicit state-passing function that either
returns a value or raises one of the program's errors.  The try/catch
+ finally structure of each command is mirrored by running the pipeline,
mapping its result to a spinner outcome, and applying the unconditional
scratch-directory cleanup to whatever state the pipeline stopped in.
-/

namespace SoloUI

/-! ### String primitives (JS `String.prototype.includes` / `startsWith`) -/

/-- Substring test on character lists: does `pat` occur contiguously in `s`?
Models JavaScript `s.includes(pat)`. -/
def containsSub (s pat : List Char) : Bool :=
  match s with
  | [] => pat.isEmpty
  | _ :: rest => pat.isPrefixOf s || containsSub rest pat

/-- JavaScript `s.includes(pat)`. -/
def jsIncludes (s pat : String) : Bool := containsSub s.toList pat.toList

/-- JavaScript `s.startsWith(pat)`. -/
def jsStartsWith (s pat : String) : Bool := pat.toList.isPrefixOf s.toList

/-- Number of (possibly overlapping) start positions at which `pat` occurs in `s`. -/
def countOcc (pat s : List Char) : Nat :=
  match s with
  | [] => if pat.isEmpty then 1 else 0
  | _ :: rest => (if pat.isPrefixOf s then 1 else 0) + countOcc pat rest

/-- The content-level merge performed by `mergeStyles` once both the component
fragment and the global stylesheet have been read: if the fragment already
occurs as a substring the stylesheet is left alone, otherwise the fragment is
appended preceded by a newline (`fs.appendFile(globalStylePath, "\n" + componentStyles)`). -/
def mergeStylesString (globalStyles componentStyles : String) : String :=
  if jsIncludes globalStyles componentStyles then globalStyles
  else globalStyles ++ "\n" ++ componentStyles

/-! ### Association-list primitives (JS object / directory semantics) -/

/-- A directory of text files: relative path to file content. -/
abbrev FileTree := List (String × String)

/-- Set key `k` to `v` in an association list: replace the existing binding in
place if present (JS object property assignment / spread override), otherwise
append the new binding at the end (JS property insertion order). -/
def upsert {α : Type} (l : List (String × α)) (k : String) (v : α) : List (String × α) :=
  match l with
  | [] => [(k, v)]
  | p :: rest => if p.1 == k then (k, v) :: rest else p :: upsert rest k v

/-- `fs.copy` of a directory onto a possibly existing directory: every file of
`src` is written into `dst`, overwriting files of the same name and keeping
files of `dst` that `src` does not have. -/
def copyInto (dst src : FileTree) : FileTree :=
  src.foldl (fun acc kv => upsert acc kv.1 kv.2) dst

/-! ### The package manifest (`package.json`) -/

/-- The target project's `package.json`, as the program reads it with
`fs.readJson`: the two fields the program touches are kept structurally
(`none` = the field is absent from the JSON object), every other field is an
opaque key/value in `others`. -/
structure Manifest where
  dependencies : Option (List (String × String))
  devDependencies : Option (List (String × String))
  others : List (String × String)
deriving DecidableEq

/-- The three dev-dependency entries `init` writes, in source order. -/
def fixedDevDeps : List (String × String) :=
  [("tailwindcss", "^3.4.0"), ("postcss", "^8.4.0"), ("autoprefixer", "^10.4.0")]

/-- The manifest update performed by `init`:
`if (!packageJson.dependencies) packageJson.dependencies = {}`,
`if (!packageJson.devDependencies) packageJson.devDependencies = {}`,
then `packageJson.devDependencies = { ...packageJson.devDependencies, tailwindcss: "^3.4.0", postcss: "^8.4.0", autoprefixer: "^10.4.0" }`. -/
def initUpdateManifest (m : Manifest) : Manifest :=
  let deps := match m.dependencies with
    | none => some []
    | some d => some d
  let devDeps := match m.devDependencies with
    | none => []
    | some d => d
  { m with
    dependencies := deps
    devDependencies := some (fixedDevDeps.foldl (fun acc kv => upsert acc kv.1 kv.2) devDeps) }

/-! ### The fetched catalog and the scratch directory -/

/-- One child of a directory: a subdirectory with its files, or a plain file. -/
inductive CatChild where
  | dir (files : FileTree)
  | file (content : String)
deriving DecidableEq

/-- The relevant content of a successfully cloned copy of the remote
repository: the children of `packages/components` (the catalog root that
`add` resolves components in and `list` enumerates), and the two framework
config files at the repository root that `init` copies. -/
structure Catalog where
  children : List (String × CatChild)
  rootTailwindConfig : Option String
  rootPostcssConfig : Option String
deriving DecidableEq

/-- The global stylesheet template `packages/components/styles/globals.css`
inside the fetched catalog, when present. -/
def catStylesTemplate (cat : Catalog) : Option String :=
  match cat.children.lookup "styles" with
  | some (CatChild.dir files) => files.lookup "globals.css"
  | _ => none

/-- Directory-enumeration view of the catalog root: `fs.readdir` names paired
with `statSync(...).isDirectory()`. -/
structure CatEntry where
  name : String
  isDir : Bool
deriving DecidableEq

/-- `fs.readdir(TEMP_DIR/packages/components)` plus a `statSync` per entry. -/
def catEntries (cat : Catalog) : List CatEntry :=
  cat.children.map fun p =>
    { name := p.1
      isDir := match p.2 with
        | CatChild.dir _ => true
        | CatChild.file _ => false }

/-- The scratch directory `.solo-ui-temp`: absent, present but empty, present
with stale non-empty leftovers of an earlier run, or holding a fresh clone. -/
inductive TempDir where
  | absent
  | empty
  | junk
  | cloned (cat : Catalog)
deriving DecidableEq

/-- The children of `.solo-ui-temp/packages/components`, empty when no clone
is present. -/
def tempChildren : TempDir → List (String × CatChild)
  | TempDir.cloned cat => cat.children
  | _ => []

/-! ### The target project and the whole filesystem state -/

/-- The part of the consumer project the program reads and writes:
`package.json`, the `src/styles` and `src/components` directories, the global
stylesheet `src/styles/globals.css`, the two copied config files, and the
contents of `src/components`. -/
structure Project where
  packageJson : Option Manifest
  srcStylesDir : Bool
  srcComponentsDir : Bool
  globalsCss : Option String
  tailwindConfigJs : Option String
  postcssConfigJs : Option String
  components : List (String × CatChild)
deriving DecidableEq

/-- The filesystem state a command invocation manipulates. -/
structure FsState where
  proj : Project
  temp : TempDir
deriving DecidableEq

/-- `fs.copy` of the catalog child `ch` to `src/components/<c>`: a file
replaces whatever was there; a directory is merged file-by-file into an
existing directory of the same name and otherwise placed as-is. -/
def installChild (dst : List (String × CatChild)) (c : String) (ch : CatChild) :
    List (String × CatChild) :=
  match ch with
  | CatChild.file content => upsert dst c (CatChild.file content)
  | CatChild.dir files =>
    match dst.lookup c with
    | some (CatChild.dir existing) => upsert dst c (CatChild.dir (copyInto existing files))
    | _ => upsert dst c (CatChild.dir files)

/-! ### The in-place rewrite of `tailwind.config.js` (`modifyTailwindConfig`) -/

/-- Whitespace for the `\s` class of the source regex (the characters that
occur in real config files). -/
def isWsChar (c : Char) : Bool :=
  c = ' ' || c = '\t' || c = '\n' || c = '\r'

/-- Drop leading regex-`\s` whitespace. -/
def dropWs : List Char → List Char
  | [] => []
  | c :: rest => if isWsChar c then dropWs rest else c :: rest

/-- Lazy scan to the first `]`, returning the remainder after it. -/
def afterCloseBracket : List Char → Option (List Char)
  | [] => none
  | c :: rest => if c = ']' then some rest else afterCloseBracket rest

/-- Try to match the regex `content:\s*\[[^]*?\]` at the head of `s`; on
success return the text following the matched span. -/
def matchContentAt (s : List Char) : Option (List Char) :=
  if ("content:".toList).isPrefixOf s then
    match dropWs (s.drop 8) with
    | '[' :: rest => afterCloseBracket rest
    | _ => none
  else none

/-- Replace the leftmost match of the regex by `repl` (a non-global JS
`String.replace`: at most one replacement); no match leaves `s` unchanged. -/
def replaceContentAux (s repl : List Char) : List Char :=
  match s with
  | [] => []
  | c :: rest =>
    match matchContentAt (c :: rest) with
    | some remainder => repl ++ remainder
    | none => c :: replaceContentAux rest repl

/-- The replacement text of `modifyTailwindConfig`. -/
def tailwindContentRepl : String := "content: [\"./src/**/*.\x7bjs,ts,jsx,tsx\x7d\"]"

/-- `modifyTailwindConfig`: read the copied `tailwind.config.js`, replace its
content-path glob, write it back. -/
def modifyTailwindConfigStr (config : String) : String :=
  String.mk (replaceContentAux config.toList tailwindContentRepl.toList)

/-! ### Errors and their messages -/

/-- The errors a pipeline stage can raise. -/
inductive Err where
  | notAProject
  | networkError
  | destNotEmpty
  | componentNotFound (name : String)
  | enoent (op : String)
deriving DecidableEq

/-- The `error.message` text the catch block extracts. -/
def errMessage : Err → String
  | Err.notAProject => "No package.json found. Please run this command in a Node.js project."
  | Err.networkError => "fatal: unable to access remote repository"
  | Err.destNotEmpty =>
      "fatal: destination path .solo-ui-temp already exists and is not an empty directory."
  | Err.componentNotFound c => "Component " ++ c ++ " not found in solo-ui components"
  | Err.enoent op => "ENOENT: no such file or directory, " ++ op

/-! ### Pipeline steps -/

/-- One pipeline stage: transforms the filesystem state and either produces a
value or raises an error, leaving the state as it was at the raise point. -/
abbrev Step (α : Type) := FsState → Except Err α × FsState

/-- Sequencing of stages: an error short-circuits the rest of the pipeline. -/
def stepBind {α β : Type} (m : Step α) (f : α → Step β) : Step β := fun s =>
  match m s with
  | (Except.error e, s1) => (Except.error e, s1)
  | (Except.ok a, s1) => f a s1

/-- A stage that only returns a value. -/
def stepPure {α : Type} (a : α) : Step α := fun s => (Except.ok a, s)

/-- `checkProjectConfig`: `fs.pathExists("package.json")`, throwing when the
manifest is missing.  Read-only. -/
def checkProjectConfig : Step Unit := fun s =>
  if s.proj.packageJson.isSome then (Except.ok (), s)
  else (Except.error Err.notAProject, s)

/-- `fs.ensureDir(TEMP_DIR)`: creates the scratch directory when absent and
leaves any existing content (empty, stale or cloned) untouched. -/
def ensureTempDir : Step Unit := fun s =>
  match s.temp with
  | TempDir.absent => (Except.ok (), { s with temp := TempDir.empty })
  | _ => (Except.ok (), s)

/-- `fs.ensureDir(path.join(process.cwd(), "src", "components"))`. -/
def ensureSrcComponentsDir : Step Unit := fun s =>
  (Except.ok (), { s with proj := { s.proj with srcComponentsDir := true } })

/-- `fs.ensureDir(path.join(process.cwd(), "src", "styles"))`. -/
def ensureSrcStylesDir : Step Unit := fun s =>
  (Except.ok (), { s with proj := { s.proj with srcStylesDir := true } })

/-- `git.clone(REPO_URL, TEMP_DIR, ["--depth", "1"])`: fails when the
destination exists and is not empty, fails when the network fetch itself
fails (`net = none`), and otherwise fills the scratch directory with a clean
copy of the catalog. -/
def gitCloneDepth1 (net : Option Catalog) : Step Unit := fun s =>
  match s.temp with
  | TempDir.junk => (Except.error Err.destNotEmpty, s)
  | TempDir.cloned _ => (Except.error Err.destNotEmpty, s)
  | _ =>
    match net with
    | none => (Except.error Err.networkError, s)
    | some cat => (Except.ok (), { s with temp := TempDir.cloned cat })

/-- `checkComponentDependencies`: reads `types.ts` of the component when it
exists; the dependency analysis itself is an unimplemented stub (`TODO` in the
source), so the stage neither mutates state nor throws. -/
def checkComponentDependencies (_c : String) : Step Unit := fun s =>
  (Except.ok (), s)

/-- The guard `if (!(await fs.pathExists(componentPath))) throw ...` of `add`:
the component must exist under `TEMP_DIR/packages/components`. -/
def componentExistsGuard (c : String) : Step Unit := fun s =>
  if ((tempChildren s.temp).lookup c).isSome then (Except.ok (), s)
  else (Except.error (Err.componentNotFound c), s)

/-- `fs.copy(componentPath, targetPath)`: copy the component out of the
scratch clone into `src/components/<c>`; raises ENOENT when the source path
does not exist. -/
def copyComponentToTarget (c : String) : Step Unit := fun s =>
  match (tempChildren s.temp).lookup c with
  | none =>
      (Except.error (Err.enoent ("stat .solo-ui-temp/packages/components/" ++ c)), s)
  | some ch =>
      (Except.ok (),
        { s with proj := { s.proj with components := installChild s.proj.components c ch } })

/-- `mergeStyles(componentPath)`: when the component ships a `styles.css`,
read it together with the current `src/styles/globals.css` (raising ENOENT if
the global stylesheet does not exist — the merge never creates it) and write
back the content-level merge; a component without a fragment is a no-op. -/
def mergeStyles (c : String) : Step Unit := fun s =>
  match (tempChildren s.temp).lookup c with
  | some (CatChild.dir files) =>
    match files.lookup "styles.css" with
    | some componentStyles =>
      match s.proj.globalsCss with
      | none => (Except.error (Err.enoent "open src/styles/globals.css"), s)
      | some globalStyles =>
        (Except.ok (),
          { s with proj :=
            { s.proj with globalsCss := some (mergeStylesString globalStyles componentStyles) } })
    | none => (Except.ok (), s)
  | _ => (Except.ok (), s)

/-- `fs.copy` of `packages/components/styles/globals.css` from the clone to
`src/styles/globals.css`; ENOENT when the template is missing from the
fetched catalog. -/
def copyStylesTemplate : Step Unit := fun s =>
  match s.temp with
  | TempDir.cloned cat =>
    match catStylesTemplate cat with
    | none =>
        (Except.error (Err.enoent "stat .solo-ui-temp/packages/components/styles/globals.css"), s)
    | some tpl =>
        (Except.ok (), { s with proj := { s.proj with globalsCss := some tpl } })
  | _ =>
      (Except.error (Err.enoent "stat .solo-ui-temp/packages/components/styles/globals.css"), s)

/-- `fs.copy` of the clone's root `tailwind.config.js` into the project. -/
def copyTailwindConfig : Step Unit := fun s =>
  match s.temp with
  | TempDir.cloned cat =>
    match cat.rootTailwindConfig with
    | none => (Except.error (Err.enoent "stat .solo-ui-temp/tailwind.config.js"), s)
    | some cfg =>
        (Except.ok (), { s with proj := { s.proj with tailwindConfigJs := some cfg } })
  | _ => (Except.error (Err.enoent "stat .solo-ui-temp/tailwind.config.js"), s)

/-- `fs.copy` of the clone's root `postcss.config.js` into the project. -/
def copyPostcssConfig : Step Unit := fun s =>
  match s.temp with
  | TempDir.cloned cat =>
    match cat.rootPostcssConfig with
    | none => (Except.error (Err.enoent "stat .solo-ui-temp/postcss.config.js"), s)
    | some cfg =>
        (Except.ok (), { s with proj := { s.proj with postcssConfigJs := some cfg } })
  | _ => (Except.error (Err.enoent "stat .solo-ui-temp/postcss.config.js"), s)

/-- `modifyTailwindConfig(path.join(process.cwd(), "tailwind.config.js"))`:
read the just-copied config, rewrite the content glob, write it back. -/
def modifyTailwindConfigStep : Step Unit := fun s =>
  match s.proj.tailwindConfigJs with
  | none => (Except.error (Err.enoent "open tailwind.config.js"), s)
  | some cfg =>
      (Except.ok (),
        { s with proj := { s.proj with tailwindConfigJs := some (modifyTailwindConfigStr cfg) } })

/-- `fs.readJson("package.json")` followed by the dev-dependency merge and
`fs.writeJson`. -/
def updatePackageJson : Step Unit := fun s =>
  match s.proj.packageJson with
  | none => (Except.error (Err.enoent "open package.json"), s)
  | some m =>
      (Except.ok (),
        { s with proj := { s.proj with packageJson := some (initUpdateManifest m) } })

/-- `fs.readdir(componentsDir)` with a `statSync` per entry, as `list` does. -/
def readCatalogEntries : Step (List CatEntry) := fun s =>
  match s.temp with
  | TempDir.cloned cat => (Except.ok (catEntries cat), s)
  | _ => (Except.error (Err.enoent "scandir .solo-ui-temp/packages/components"), s)

/-- The filter of `list` over the catalog-root entries: drop hidden names,
drop `styles`, `package.json` and `node_modules`, keep only directories. -/
def filterCatalogItems (items : List CatEntry) : List CatEntry :=
  items.filter fun e =>
    if jsStartsWith e.name "." then false
    else if (["styles", "package.json", "node_modules"].contains e.name) then false
    else e.isDir

/-- `cleanupTemp`: the `finally` block of every command; removes the scratch
directory when it exists. -/
def cleanupTemp (s : FsState) : FsState :=
  match s.temp with
  | TempDir.absent => s
  | _ => { s with temp := TempDir.absent }

/-! ### The three commands -/

/-- What the user sees at the end of a command: the spinner's terminal state. -/
inductive Outcome where
  | succeeded (msg : String)
  | failed (msg : String)
  | info (msg : String)
  | noSelection
deriving DecidableEq

/-- The `try` block of `add <component>`. -/
def tryAdd (net : Option Catalog) (c : String) : Step Unit :=
  stepBind checkProjectConfig fun _ =>
  stepBind ensureTempDir fun _ =>
  stepBind ensureSrcComponentsDir fun _ =>
  stepBind (gitCloneDepth1 net) fun _ =>
  stepBind (checkComponentDependencies c) fun _ =>
  stepBind (componentExistsGuard c) fun _ =>
  stepBind (copyComponentToTarget c) fun _ =>
  mergeStyles c

/-- The `add` command: run the pipeline, report on the spinner, and run the
unconditional cleanup of the scratch directory. -/
def runAdd (net : Option Catalog) (c : String) (s : FsState) : Outcome × FsState :=
  match tryAdd net c s with
  | (Except.ok _, s1) =>
      (Outcome.succeeded ("Successfully added " ++ c ++ " component to src/components/" ++ c),
        cleanupTemp s1)
  | (Except.error e, s1) =>
      (Outcome.failed ("Failed to add component: " ++ errMessage e), cleanupTemp s1)

/-- The `try` block of `init`. -/
def tryInit (net : Option Catalog) : Step Unit :=
  stepBind checkProjectConfig fun _ =>
  stepBind ensureSrcStylesDir fun _ =>
  stepBind ensureSrcComponentsDir fun _ =>
  stepBind (gitCloneDepth1 net) fun _ =>
  stepBind copyStylesTemplate fun _ =>
  stepBind copyTailwindConfig fun _ =>
  stepBind modifyTailwindConfigStep fun _ =>
  stepBind copyPostcssConfig fun _ =>
  updatePackageJson

/-- The `init` command with its catch/finally boundary. -/
def runInit (net : Option Catalog) (s : FsState) : Outcome × FsState :=
  match tryInit net s with
  | (Except.ok _, s1) => (Outcome.succeeded "Successfully initialized solo-ui!", cleanupTemp s1)
  | (Except.error e, s1) =>
      (Outcome.failed ("Failed to initialize: " ++ errMessage e), cleanupTemp s1)

/-- The possible non-error terminations of the `list` pipeline. -/
inductive ListResult where
  | installed (c : String)
  | noneAvailable
  | cancelled
deriving DecidableEq

/-- The `try` block of `list`: fetch, enumerate and filter the catalog root,
report when nothing is selectable, otherwise offer the interactive selection
(`sel` is the value the prompt resolves with; `none` is a cancelled prompt)
and install the chosen component. -/
def tryList (net : Option Catalog) (sel : Option String) : Step ListResult :=
  stepBind ensureTempDir fun _ =>
  stepBind (gitCloneDepth1 net) fun _ =>
  stepBind readCatalogEntries fun items =>
  let components := (filterCatalogItems items).map CatEntry.name
  if components.isEmpty then stepPure ListResult.noneAvailable
  else
    match sel with
    | none => stepPure ListResult.cancelled
    | some c =>
      stepBind ensureSrcComponentsDir fun _ =>
      stepBind (copyComponentToTarget c) fun _ =>
      stepBind (mergeStyles c) fun _ =>
      stepPure (ListResult.installed c)

/-- The `list` command with its catch/finally boundary. -/
def runList (net : Option Catalog) (sel : Option String) (s : FsState) : Outcome × FsState :=
  match tryList net sel s with
  | (Except.ok (ListResult.installed c), s1) =>
      (Outcome.succeeded ("Successfully added " ++ c ++ " component to src/components/" ++ c),
        cleanupTemp s1)
  | (Except.ok ListResult.noneAvailable, s1) =>
      (Outcome.info "No components available", cleanupTemp s1)
  | (Except.ok ListResult.cancelled, s1) => (Outcome.noSelection, cleanupTemp s1)
  | (Except.error e, s1) =>
      (Outcome.failed ("Failed to fetch components: " ++ errMessage e), cleanupTemp s1)

/-! ### Sample data for concrete runs -/

/-- A typical target-project manifest with no dependency fields. -/
def sampleManifest : Manifest :=
  { dependencies := none
    devDependencies := none
    others := [("name", "myapp"), ("version", "1.0.0")] }

/-- A manifest that already has both dependency fields. -/
def sampleManifest2 : Manifest :=
  { dependencies := some [("react", "^18.0.0")]
    devDependencies := some [("typescript", "^5.0.0")]
    others := [("name", "webapp")] }

/-- A small fetched catalog: a styled `button` component, an unstyled `card`
component, and the shared `styles` directory with the stylesheet template. -/
def sampleCatalog : Catalog :=
  { children :=
      [("button", CatChild.dir [("index.tsx", "export const Button = 0"), ("styles.css", ".btn")]),
       ("card", CatChild.dir [("index.tsx", "export const Card = 0")]),
       ("styles", CatChild.dir [("globals.css", "@tailwind base;")])]
    rootTailwindConfig := some "module.exports = 0"
    rootPostcssConfig := some "module.exports = 1" }

/-- A catalog whose root holds only non-component entries. -/
def nonComponentCatalog : Catalog :=
  { children :=
      [(".git", CatChild.dir []),
       ("styles", CatChild.dir [("globals.css", "@tailwind base;")]),
       ("package.json", CatChild.file "pkg"),
       ("node_modules", CatChild.dir []),
       ("README.md", CatChild.file "readme")]
    rootTailwindConfig := some "module.exports = 0"
    rootPostcssConfig := some "module.exports = 1" }

/-- A catalog mixing one real component with every excluded kind of entry. -/
def mixedCatalog : Catalog :=
  { children :=
      [(".git", CatChild.dir []),
       ("styles", CatChild.dir [("globals.css", "@tailwind base;")]),
       ("package.json", CatChild.file "pkg"),
       ("node_modules", CatChild.dir []),
       ("button", CatChild.dir [("index.tsx", "export const Button = 0")])]
    rootTailwindConfig := none
    rootPostcssConfig := none }

/-- An initialized target project with no scratch directory. -/
def sampleState : FsState :=
  { proj :=
      { packageJson := some sampleManifest
        srcStylesDir := true
        srcComponentsDir := true
        globalsCss := some "@tailwind base;"
        tailwindConfigJs := none
        postcssConfigJs := none
        components := [] }
    temp := TempDir.absent }

/-- A directory that is not a Node.js project (no package.json). -/
def sampleStateNoPkg : FsState :=
  { proj :=
      { packageJson := none
        srcStylesDir := false
        srcComponentsDir := false
        globalsCss := none
        tailwindConfigJs := none
        postcssConfigJs := none
        components := [] }
    temp := TempDir.absent }

/-- A valid project that was never initialized: no global stylesheet. -/
def sampleStateNoCss : FsState :=
  { sampleState with proj := { sampleState.proj with globalsCss := none } }

/-- A valid project with stale non-empty scratch content left behind. -/
def sampleStateJunk : FsState :=
  { sampleState with temp := TempDir.junk }

/-! ### Helper lemmas -/

/-- A list is a substring of itself. -/
theorem containsSub_self (b : List Char) : containsSub b b = true := by
  cases b with
  | nil => rfl
  | cons c rest => simp [containsSub, List.isPrefixOf_iff_prefix]

/-- A suffix is a substring. -/
theorem containsSub_append_right (a b : List Char) : containsSub (a ++ b) b = true := by
  induction a with
  | nil => simpa using containsSub_self b
  | cons x xs ih => simp [containsSub, ih]

/-- After appending `b`, the string includes `b`. -/
theorem jsIncludes_append_self (a b : String) : jsIncludes (a ++ b) b = true := by
  have h : (a ++ b).toList = a.toList ++ b.toList := String.data_append a b
  simp [jsIncludes, h, containsSub_append_right]

/-- `upsert` binds the written key to the written value. -/
theorem lookup_upsert_self {α : Type} (l : List (String × α)) (k : String) (v : α) :
    (upsert l k v).lookup k = some v := by
  induction l with
  | nil => simp [upsert, List.lookup]
  | cons p rest ih =>
    by_cases h : p.1 = k
    · simp [upsert, h, List.lookup]
    · have hb : (k == p.1) = false := beq_eq_false_iff_ne.mpr (Ne.symm h)
      have hb2 : (p.1 == k) = false := beq_eq_false_iff_ne.mpr h
      simp [upsert, hb2, List.lookup, hb, ih]

/-- `upsert` leaves every other key alone. -/
theorem lookup_upsert_ne {α : Type} (l : List (String × α)) (k k2 : String) (v : α)
    (h : k2 ≠ k) : (upsert l k v).lookup k2 = l.lookup k2 := by
  have hk : (k2 == k) = false := beq_eq_false_iff_ne.mpr h
  induction l with
  | nil => simp [upsert, List.lookup, hk]
  | cons p rest ih =>
    by_cases hp : p.1 = k
    · subst hp
      simp [upsert, List.lookup, hk]
    · have hb2 : (p.1 == k) = false := beq_eq_false_iff_ne.mpr hp
      by_cases hk2 : k2 = p.1
      · simp [upsert, hb2, List.lookup, hk2, ih]
      · have hb3 : (k2 == p.1) = false := beq_eq_false_iff_ne.mpr hk2
        simp [upsert, hb2, List.lookup, hb3, ih]

/-- Cleanup always leaves the scratch directory absent. -/
theorem cleanupTemp_temp (s : FsState) : (cleanupTemp s).temp = TempDir.absent := by
  cases h : s.temp <;> simp [cleanupTemp, h]

/-- Cleanup never touches the target project. -/
theorem cleanupTemp_proj (s : FsState) : (cleanupTemp s).proj = s.proj := by
  cases h : s.temp <;> simp [cleanupTemp, h]

/-- Cleanup of an absent scratch directory is the identity. -/
theorem cleanupTemp_of_absent (s : FsState) (h : s.temp = TempDir.absent) :
    cleanupTemp s = s := by
  simp [cleanupTemp, h]

/-! ### Claim C1 (style-merge idempotence) -/

/-- Claim C1, amended: for every global stylesheet and fragment, the merge is a
no-op when the fragment is already a substring and otherwise appends the
fragment preceded by a newline; after a merge the fragment is always a
substring of the result, so merging the same fragment twice equals merging it
once.  (The original "exactly one occurrence" count does not hold in general —
see the counterexample.) -/
theorem merge_idempotent_and_guarded (g f : String) :
    mergeStylesString (mergeStylesString g f) f = mergeStylesString g f ∧
    jsIncludes (mergeStylesString g f) f = true ∧
    (jsIncludes g f = true → mergeStylesString g f = g) ∧
    (jsIncludes g f = false → mergeStylesString g f = g ++ "\n" ++ f) := by
  by_cases h : jsIncludes g f
  · have hg : mergeStylesString g f = g := by simp [mergeStylesString, h]
    refine ⟨?_, ?_, fun _ => hg, fun hc => absurd h (by simp [hc])⟩
    · rw [hg, hg]
    · rw [hg]
      simpa using h
  · have hb : jsIncludes g f = false := by simpa using h
    have happ : mergeStylesString g f = g ++ "\n" ++ f := by simp [mergeStylesString, hb]
    have hinc : jsIncludes (g ++ "\n" ++ f) f = true := jsIncludes_append_self (g ++ "\n") f
    refine ⟨?_, ?_, fun hc => absurd hc (by simp [hb]), fun _ => happ⟩
    · rw [happ, mergeStylesString, hinc]
      simp
    · rw [happ]
      exact hinc

/-- Claim C1 counterexample: merging the fragment "a\na" twice into the global
stylesheet "a" performs a single append whose result already contains two
occurrences of the fragment (the appended newline completes a second,
overlapping copy), refuting "exactly one occurrence of the fragment's text". -/
theorem merge_twice_two_occurrences :
    countOcc ("a\na").toList
      ((mergeStylesString (mergeStylesString "a" "a\na") "a\na").toList) = 2 ∧
    (2 : Nat) ≠ 1 := by
  constructor
  · decide
  · decide

/-- Claim C1 witness: a fresh fragment is appended once and the second merge
changes nothing. -/
theorem merge_idempotent_and_guarded_witness :
    mergeStylesString (mergeStylesString "body" ".btn") ".btn" =
      mergeStylesString "body" ".btn" ∧
    mergeStylesString "body" ".btn" = "body" ++ "\n" ++ ".btn" :=
  ⟨(merge_idempotent_and_guarded "body" ".btn").1,
    (merge_idempotent_and_guarded "body" ".btn").2.2.2 (by decide)⟩

/-! ### Claim C2 (cleanup invariant) -/

/-- Claim C2: after any invocation of `add`, `init` or `list` — whatever its
outcome, success or failure at any stage — the scratch directory
`.solo-ui-temp` does not exist. -/
theorem scratch_workspace_removed_after_every_command
    (net : Option Catalog) (c : String) (sel : Option String) (s : FsState) :
    (runAdd net c s).2.temp = TempDir.absent ∧
    (runInit net s).2.temp = TempDir.absent ∧
    (runList net sel s).2.temp = TempDir.absent := by
  refine ⟨?_, ?_, ?_⟩
  · rcases h : tryAdd net c s with ⟨r, s1⟩
    rcases r with e | a <;> simp [runAdd, h, cleanupTemp_temp]
  · rcases h : tryInit net s with ⟨r, s1⟩
    rcases r with e | a <;> simp [runInit, h, cleanupTemp_temp]
  · rcases h : tryList net sel s with ⟨r, s1⟩
    rcases r with e | a
    · simp [runList, h, cleanupTemp_temp]
    · rcases a with c2 | _ | _ <;> simp [runList, h, cleanupTemp_temp]

/-! ### Claim C3 (ComponentNotFound leaves components untouched) -/

/-- Claim C3: when the requested component is absent from the fetched catalog,
`add` fails with the ComponentNotFound error and nothing under the target
components directory is created, modified or removed (the whole project state
differs only in the `src/components` directory now existing), and the global
stylesheet is untouched. -/
theorem add_absent_component_fails_preserving_components
    (cat : Catalog) (c : String) (s : FsState)
    (hpkg : s.proj.packageJson.isSome = true)
    (htemp : s.temp = TempDir.absent ∨ s.temp = TempDir.empty)
    (habsent : cat.children.lookup c = none) :
    (runAdd (some cat) c s).1 =
      Outcome.failed ("Failed to add component: " ++ errMessage (Err.componentNotFound c)) ∧
    (runAdd (some cat) c s).2.proj = { s.proj with srcComponentsDir := true } ∧
    (runAdd (some cat) c s).2.proj.components = s.proj.components ∧
    (runAdd (some cat) c s).2.proj.globalsCss = s.proj.globalsCss ∧
    (runAdd (some cat) c s).2.temp = TempDir.absent := by
  have htry : tryAdd (some cat) c s =
      (Except.error (Err.componentNotFound c),
        { proj := { s.proj with srcComponentsDir := true }, temp := TempDir.cloned cat }) := by
    rcases htemp with ht | ht <;>
      simp [tryAdd, stepBind, checkProjectConfig, hpkg, ensureTempDir, ht,
        ensureSrcComponentsDir, gitCloneDepth1, checkComponentDependencies,
        componentExistsGuard, tempChildren, habsent]
  refine ⟨?_, ?_, ?_, ?_, ?_⟩ <;>
    simp [runAdd, htry, cleanupTemp]

/-- Claim C3 witness. -/
theorem add_absent_component_witness :
    (runAdd (some sampleCatalog) "ghost" sampleState).1 =
      Outcome.failed
        ("Failed to add component: " ++ errMessage (Err.componentNotFound "ghost")) ∧
    (runAdd (some sampleCatalog) "ghost" sampleState).2.proj.components =
      sampleState.proj.components :=
  ⟨(add_absent_component_fails_preserving_components sampleCatalog "ghost" sampleState
      rfl (Or.inl rfl) (by decide)).1,
   (add_absent_component_fails_preserving_components sampleCatalog "ghost" sampleState
      rfl (Or.inl rfl) (by decide)).2.2.1⟩

/-! ### Claim C4 (validation precedes all writes and network access) -/

/-- Claim C4: with no package manifest, `add` and `init` fail with the
NotAProject error raised by the read-only existence check before anything
else runs: the target project is untouched, the result does not depend on
the network at all, and — absent stale scratch content for the final cleanup
to remove — the filesystem is left exactly as it was. -/
theorem validation_failure_precedes_all_writes
    (net1 net2 : Option Catalog) (c : String) (s : FsState)
    (h : s.proj.packageJson = none) :
    (runAdd net1 c s).1 =
      Outcome.failed ("Failed to add component: " ++ errMessage Err.notAProject) ∧
    (runAdd net1 c s).2.proj = s.proj ∧
    runAdd net1 c s = runAdd net2 c s ∧
    (s.temp = TempDir.absent → (runAdd net1 c s).2 = s) ∧
    (runInit net1 s).1 =
      Outcome.failed ("Failed to initialize: " ++ errMessage Err.notAProject) ∧
    (runInit net1 s).2.proj = s.proj ∧
    runInit net1 s = runInit net2 s ∧
    (s.temp = TempDir.absent → (runInit net1 s).2 = s) := by
  have hadd : ∀ net, tryAdd net c s = (Except.error Err.notAProject, s) := by
    intro net
    simp [tryAdd, stepBind, checkProjectConfig, h]
  have hinit : ∀ net, tryInit net s = (Except.error Err.notAProject, s) := by
    intro net
    simp [tryInit, stepBind, checkProjectConfig, h]
  refine ⟨?_, ?_, ?_, ?_, ?_, ?_, ?_, ?_⟩
  · simp [runAdd, hadd]
  · simp [runAdd, hadd, cleanupTemp_proj]
  · simp [runAdd, hadd]
  · intro ht
    simp [runAdd, hadd, cleanupTemp_of_absent s ht]
  · simp [runInit, hinit]
  · simp [runInit, hinit, cleanupTemp_proj]
  · simp [runInit, hinit]
  · intro ht
    simp [runInit, hinit, cleanupTemp_of_absent s ht]

/-- Claim C4 witness. -/
theorem validation_failure_precedes_all_writes_witness :
    (runAdd (some sampleCatalog) "button" sampleStateNoPkg).1 =
      Outcome.failed ("Failed to add component: " ++ errMessage Err.notAProject) ∧
    (runAdd (some sampleCatalog) "button" sampleStateNoPkg).2 = sampleStateNoPkg ∧
    (runInit (some sampleCatalog) sampleStateNoPkg).1 =
      Outcome.failed ("Failed to initialize: " ++ errMessage Err.notAProject) :=
  ⟨(validation_failure_precedes_all_writes (some sampleCatalog) none "button"
      sampleStateNoPkg rfl).1,
   (validation_failure_precedes_all_writes (some sampleCatalog) none "button"
      sampleStateNoPkg rfl).2.2.2.1 rfl,
   (validation_failure_precedes_all_writes (some sampleCatalog) none "button"
      sampleStateNoPkg rfl).2.2.2.2.1⟩

/-! ### Claim C5 (scratch destination before cloning) -/

/-- Claim C5 counterexample: with a pre-existing non-empty scratch directory
left by a prior failed run, `add` fails outright (the clone is refused)
instead of succeeding, while the identical invocation without the stale
directory succeeds — the destination is not "freshly created or ensured
empty". -/
theorem stale_scratch_clone_fails_concrete :
    (runAdd (some sampleCatalog) "button" sampleStateJunk).1 =
      Outcome.failed ("Failed to add component: " ++ errMessage Err.destNotEmpty) ∧
    (runAdd (some sampleCatalog) "button" sampleState).1 =
      Outcome.succeeded "Successfully added button component to src/components/button" := by
  constructor
  · decide
  · decide

/-- Claim C5, amended: `ensureDir` only guarantees the scratch directory
exists (it never empties it); a pre-existing non-empty destination makes the
clone — and hence the whole command — fail with the git error, but the
unconditional cleanup then removes the stale directory, so an identical
immediate retry fetches cleanly and succeeds. -/
theorem stale_scratch_fails_clone_then_retry_succeeds
    (cat : Catalog) (c : String) (s : FsState) (files : FileTree)
    (hpkg : s.proj.packageJson.isSome = true)
    (hjunk : s.temp = TempDir.junk)
    (hcomp : cat.children.lookup c = some (CatChild.dir files))
    (hnostyle : files.lookup "styles.css" = none) :
    (∀ t : FsState, ((ensureTempDir t).2).temp ≠ TempDir.absent) ∧
    (runAdd (some cat) c s).1 =
      Outcome.failed ("Failed to add component: " ++ errMessage Err.destNotEmpty) ∧
    (runAdd (some cat) c s).2.temp = TempDir.absent ∧
    (runAdd (some cat) c ((runAdd (some cat) c s).2)).1 =
      Outcome.succeeded ("Successfully added " ++ c ++ " component to src/components/" ++ c) := by
  have hensure : ∀ t : FsState, ((ensureTempDir t).2).temp ≠ TempDir.absent := by
    intro t
    cases ht : t.temp <;> simp [ensureTempDir, ht]
  have htry : tryAdd (some cat) c s =
      (Except.error Err.destNotEmpty,
        { proj := { s.proj with srcComponentsDir := true }, temp := TempDir.junk }) := by
    simp [tryAdd, stepBind, checkProjectConfig, hpkg, ensureTempDir, hjunk,
      ensureSrcComponentsDir, gitCloneDepth1]
  have hrun1 : runAdd (some cat) c s =
      (Outcome.failed ("Failed to add component: " ++ errMessage Err.destNotEmpty),
        { proj := { s.proj with srcComponentsDir := true }, temp := TempDir.absent }) := by
    simp [runAdd, htry, cleanupTemp]
  refine ⟨hensure, ?_, ?_, ?_⟩
  · simp [hrun1]
  · simp [hrun1]
  · rw [hrun1]
    simp [runAdd, tryAdd, stepBind, checkProjectConfig, hpkg, ensureTempDir,
      ensureSrcComponentsDir, gitCloneDepth1, checkComponentDependencies,
      componentExistsGuard, tempChildren, hcomp, copyComponentToTarget,
      mergeStyles, hnostyle, cleanupTemp]

/-- Claim C5 witness. -/
theorem stale_scratch_retry_witness :
    (runAdd (some sampleCatalog) "card" sampleStateJunk).1 =
      Outcome.failed ("Failed to add component: " ++ errMessage Err.destNotEmpty) ∧
    (runAdd (some sampleCatalog) "card"
        ((runAdd (some sampleCatalog) "card" sampleStateJunk).2)).1 =
      Outcome.succeeded "Successfully added card component to src/components/card" :=
  ⟨(stale_scratch_fails_clone_then_retry_succeeds sampleCatalog "card" sampleStateJunk
      [("index.tsx", "export const Card = 0")] rfl rfl (by decide) (by decide)).2.1,
   (stale_scratch_fails_clone_then_retry_succeeds sampleCatalog "card" sampleStateJunk
      [("index.tsx", "export const Card = 0")] rfl rfl (by decide) (by decide)).2.2.2⟩

/-! ### Claim C6 (the dev-dependency merge of init) -/

/-- Claim C6 counterexample: on a manifest with no `dependencies` field,
`init` materializes `dependencies: {}` when it rewrites `package.json` — a
manifest field other than `devDependencies` changes, refuting "leaves every
other field of the manifest unchanged". -/
theorem init_changes_dependencies_field :
    (runInit (some sampleCatalog) sampleState).2.proj.packageJson.map Manifest.dependencies =
      some (some []) ∧
    sampleState.proj.packageJson.map Manifest.dependencies = some none ∧
    some (some ([] : List (String × String))) ≠
      some (none : Option (List (String × String))) := by
  refine ⟨by decide, by decide, by decide⟩

/-- Claim C6, amended: for every manifest, the update of `init` binds the
three fixed dev-dependency names to their pinned ranges (overwriting an
existing binding of one of those names), keeps every other `devDependencies`
entry with its value (an absent `devDependencies` field is treated as empty,
so it ends up holding exactly the three fixed entries), keeps all remaining
manifest fields unchanged, and preserves an existing `dependencies` field —
except that an absent `dependencies` field is materialized as an empty
object. -/
theorem init_manifest_update_properties (m : Manifest) (d : List (String × String)) (k : String)
    (hk1 : k ≠ "tailwindcss") (hk2 : k ≠ "postcss") (hk3 : k ≠ "autoprefixer") :
    (initUpdateManifest m).others = m.others ∧
    (m.dependencies = some d → (initUpdateManifest m).dependencies = some d) ∧
    (m.dependencies = none → (initUpdateManifest m).dependencies = some []) ∧
    ((initUpdateManifest m).devDependencies.getD []).lookup "tailwindcss" = some "^3.4.0" ∧
    ((initUpdateManifest m).devDependencies.getD []).lookup "postcss" = some "^8.4.0" ∧
    ((initUpdateManifest m).devDependencies.getD []).lookup "autoprefixer" = some "^10.4.0" ∧
    ((initUpdateManifest m).devDependencies.getD []).lookup k =
      (m.devDependencies.getD []).lookup k ∧
    (m.devDependencies = none → (initUpdateManifest m).devDependencies = some fixedDevDeps) := by
  have hdevs : (initUpdateManifest m).devDependencies =
      some (upsert (upsert (upsert (m.devDependencies.getD []) "tailwindcss" "^3.4.0")
        "postcss" "^8.4.0") "autoprefixer" "^10.4.0") := by
    cases h : m.devDependencies <;> simp [initUpdateManifest, h, fixedDevDeps]
  refine ⟨?_, ?_, ?_, ?_, ?_, ?_, ?_, ?_⟩
  · simp [initUpdateManifest]
  · intro hd
    simp [initUpdateManifest, hd]
  · intro hd
    simp [initUpdateManifest, hd]
  · rw [hdevs]
    simp [lookup_upsert_ne _ _ _ _ (by decide : ("tailwindcss" : String) ≠ "autoprefixer"),
      lookup_upsert_ne _ _ _ _ (by decide : ("tailwindcss" : String) ≠ "postcss"),
      lookup_upsert_self]
  · rw [hdevs]
    simp [lookup_upsert_ne _ _ _ _ (by decide : ("postcss" : String) ≠ "autoprefixer"),
      lookup_upsert_self]
  · rw [hdevs]
    simp [lookup_upsert_self]
  · rw [hdevs]
    simp [lookup_upsert_ne _ _ _ _ hk3, lookup_upsert_ne _ _ _ _ hk2,
      lookup_upsert_ne _ _ _ _ hk1]
  · intro h
    rw [hdevs, h]
    rfl

/-- Claim C6 witness: a manifest that already has both fields keeps its other
entries, and the spec's own scenario — a manifest with no `devDependencies`
field — ends up with exactly the three fixed entries. -/
theorem init_manifest_update_witness :
    (initUpdateManifest sampleManifest2).others = sampleManifest2.others ∧
    (initUpdateManifest sampleManifest2).dependencies = some [("react", "^18.0.0")] ∧
    ((initUpdateManifest sampleManifest2).devDependencies.getD []).lookup "tailwindcss" =
      some "^3.4.0" ∧
    ((initUpdateManifest sampleManifest2).devDependencies.getD []).lookup "typescript" =
      some "^5.0.0" ∧
    (initUpdateManifest sampleManifest).devDependencies = some fixedDevDeps :=
  ⟨(init_manifest_update_properties sampleManifest2
      [("react", "^18.0.0")] "typescript" (by decide) (by decide) (by decide)).1,
   (init_manifest_update_properties sampleManifest2
      [("react", "^18.0.0")] "typescript" (by decide) (by decide) (by decide)).2.1 rfl,
   (init_manifest_update_properties sampleManifest2
      [("react", "^18.0.0")] "typescript" (by decide) (by decide) (by decide)).2.2.2.1,
   by
     have h := (init_manifest_update_properties sampleManifest2
       [("react", "^18.0.0")] "typescript" (by decide) (by decide) (by decide)).2.2.2.2.2.2.1
     simpa using h,
   (init_manifest_update_properties sampleManifest
      [] "typescript" (by decide) (by decide) (by decide)).2.2.2.2.2.2.2 rfl⟩

/-! ### Claim C7 (catalog exclusion) -/

/-- Claim C7: whatever the fetched catalog root contains, no name the `list`
filter offers is hidden (starts with a dot), the styles directory, the
manifest file, or the dependency-cache directory. -/
theorem list_filter_excludes_non_components (cat : Catalog) (n : String)
    (h : n ∈ (filterCatalogItems (catEntries cat)).map CatEntry.name) :
    jsStartsWith n "." = false ∧
    n ≠ "styles" ∧ n ≠ "package.json" ∧ n ≠ "node_modules" := by
  rcases List.mem_map.mp h with ⟨e, he, rfl⟩
  have hp := (List.mem_filter.mp he).2
  by_cases h1 : jsStartsWith e.name "."
  · simp [filterCatalogItems, h1] at hp
  · simp [h1] at hp
    exact ⟨by simpa using h1, hp.1.1, hp.1.2.1, hp.1.2.2⟩

/-- Claim C7 witness: from a catalog root holding `.git`, `styles`,
`package.json`, `node_modules` and `button`, only `button` is offered. -/
theorem list_filter_excludes_witness :
    jsStartsWith "button" "." = false ∧
    ("button" : String) ≠ "styles" ∧ ("button" : String) ≠ "package.json" ∧
    ("button" : String) ≠ "node_modules" :=
  list_filter_excludes_non_components mixedCatalog "button" (by decide)

/-! ### Claim C8 (empty catalog) -/

/-- Claim C8: when the filtered component list is empty, `list` reports
"No components available" on the status indicator and terminates without
error: the prompt is never consulted (the result is independent of any
selection), nothing is installed, and the final state differs from the
initial one only by the removed scratch directory. -/
theorem list_empty_catalog_reports_info
    (cat : Catalog) (sel sel2 : Option String) (s : FsState)
    (htemp : s.temp = TempDir.absent ∨ s.temp = TempDir.empty)
    (hempty : filterCatalogItems (catEntries cat) = []) :
    runList (some cat) sel s =
      (Outcome.info "No components available", { s with temp := TempDir.absent }) ∧
    runList (some cat) sel s = runList (some cat) sel2 s := by
  have htry : ∀ se : Option String, tryList (some cat) se s =
      (Except.ok ListResult.noneAvailable, { s with temp := TempDir.cloned cat }) := by
    intro se
    rcases htemp with ht | ht <;>
      simp [tryList, stepBind, ensureTempDir, ht, gitCloneDepth1, readCatalogEntries,
        hempty, stepPure]
  constructor
  · simp [runList, htry, cleanupTemp]
  · simp [runList, htry]

/-- Claim C8 witness. -/
theorem list_empty_catalog_witness :
    runList (some nonComponentCatalog) (some "button") sampleState =
      (Outcome.info "No components available", { sampleState with temp := TempDir.absent }) ∧
    runList (some nonComponentCatalog) (some "button") sampleState =
      runList (some nonComponentCatalog) none sampleState :=
  ⟨(list_empty_catalog_reports_info nonComponentCatalog (some "button") none sampleState
      (Or.inl rfl) (by decide)).1,
   (list_empty_catalog_reports_info nonComponentCatalog (some "button") none sampleState
      (Or.inl rfl) (by decide)).2⟩

/-! ### Claim C9 (uniform catch-and-report) -/

/-- Claim C9: any pipeline error, in any of the three commands, is caught at
the command boundary and turned into the command's failure message built from
the error's own message (it never propagates), and the scratch cleanup still
runs after the failure. -/
theorem pipeline_errors_caught_and_reported
    (netA : Option Catalog) (cA : String) (sA : FsState) (eA : Err)
    (netI : Option Catalog) (sI : FsState) (eI : Err)
    (netL : Option Catalog) (selL : Option String) (sL : FsState) (eL : Err)
    (hA : (tryAdd netA cA sA).1 = Except.error eA)
    (hI : (tryInit netI sI).1 = Except.error eI)
    (hL : (tryList netL selL sL).1 = Except.error eL) :
    (runAdd netA cA sA).1 = Outcome.failed ("Failed to add component: " ++ errMessage eA) ∧
    (runAdd netA cA sA).2.temp = TempDir.absent ∧
    (runInit netI sI).1 = Outcome.failed ("Failed to initialize: " ++ errMessage eI) ∧
    (runInit netI sI).2.temp = TempDir.absent ∧
    (runList netL selL sL).1 =
      Outcome.failed ("Failed to fetch components: " ++ errMessage eL) ∧
    (runList netL selL sL).2.temp = TempDir.absent := by
  rcases h1 : tryAdd netA cA sA with ⟨r1, s1⟩
  rcases h2 : tryInit netI sI with ⟨r2, s2⟩
  rcases h3 : tryList netL selL sL with ⟨r3, s3⟩
  rw [h1] at hA; rw [h2] at hI; rw [h3] at hL
  simp at hA hI hL
  subst hA hI hL
  simp [runAdd, runInit, runList, h1, h2, h3, cleanupTemp_temp]

/-- Claim C9 witness. -/
theorem pipeline_errors_caught_witness :
    (runAdd (some sampleCatalog) "button" sampleStateNoPkg).1 =
      Outcome.failed ("Failed to add component: " ++ errMessage Err.notAProject) ∧
    (runList none none sampleState).1 =
      Outcome.failed ("Failed to fetch components: " ++ errMessage Err.networkError) ∧
    (runList none none sampleState).2.temp = TempDir.absent :=
  ⟨(pipeline_errors_caught_and_reported (some sampleCatalog) "button" sampleStateNoPkg
      Err.notAProject (some sampleCatalog) sampleStateNoPkg Err.notAProject
      none none sampleState Err.networkError rfl rfl rfl).1,
   (pipeline_errors_caught_and_reported (some sampleCatalog) "button" sampleStateNoPkg
      Err.notAProject (some sampleCatalog) sampleStateNoPkg Err.notAProject
      none none sampleState Err.networkError rfl rfl rfl).2.2.2.2.1,
   (pipeline_errors_caught_and_reported (some sampleCatalog) "button" sampleStateNoPkg
      Err.notAProject (some sampleCatalog) sampleStateNoPkg Err.notAProject
      none none sampleState Err.networkError rfl rfl rfl).2.2.2.2.2⟩

/-! ### Claim C10 (merge requires an existing global stylesheet) -/

/-- Claim C10: adding a component that ships a style fragment into a project
whose global stylesheet does not exist makes the merge raise a file-read
error and the whole command fail; the merge never creates the global
stylesheet (for any state lacking it, the stylesheet still does not exist
after the merge step). -/
theorem add_styled_component_fails_without_global_stylesheet
    (cat : Catalog) (c : String) (s : FsState) (files : FileTree) (frag : String)
    (hpkg : s.proj.packageJson.isSome = true)
    (htemp : s.temp = TempDir.absent ∨ s.temp = TempDir.empty)
    (hcomp : cat.children.lookup c = some (CatChild.dir files))
    (hfrag : files.lookup "styles.css" = some frag)
    (hglob : s.proj.globalsCss = none) :
    (runAdd (some cat) c s).1 =
      Outcome.failed
        ("Failed to add component: " ++ errMessage (Err.enoent "open src/styles/globals.css")) ∧
    (runAdd (some cat) c s).2.proj.globalsCss = none ∧
    (∀ t : FsState, t.proj.globalsCss = none →
      ((mergeStyles c t).2).proj.globalsCss = none) := by
  have hmerge : ∀ t : FsState, t.proj.globalsCss = none →
      ((mergeStyles c t).2).proj.globalsCss = none := by
    intro t ht
    rcases hl : (tempChildren t.temp).lookup c with _ | ch
    · simp [mergeStyles, hl, ht]
    · rcases ch with fl | content
      · rcases hf : fl.lookup "styles.css" with _ | frag2
        · simp [mergeStyles, hl, hf, ht]
        · simp [mergeStyles, hl, hf, ht]
      · simp [mergeStyles, hl, ht]
  have htry : tryAdd (some cat) c s =
      (Except.error (Err.enoent "open src/styles/globals.css"),
        { proj :=
            { s.proj with
                srcComponentsDir := true
                components := installChild s.proj.components c (CatChild.dir files) }
          temp := TempDir.cloned cat }) := by
    rcases htemp with ht | ht <;>
      simp [tryAdd, stepBind, checkProjectConfig, hpkg, ensureTempDir, ht,
        ensureSrcComponentsDir, gitCloneDepth1, checkComponentDependencies,
        componentExistsGuard, tempChildren, hcomp, copyComponentToTarget,
        mergeStyles, hfrag, hglob]
  refine ⟨?_, ?_, hmerge⟩ <;> simp [runAdd, htry, cleanupTemp, hglob]

/-- Claim C10 witness. -/
theorem add_styled_component_no_stylesheet_witness :
    (runAdd (some sampleCatalog) "button" sampleStateNoCss).1 =
      Outcome.failed
        ("Failed to add component: " ++
          errMessage (Err.enoent "open src/styles/globals.css")) ∧
    (runAdd (some sampleCatalog) "button" sampleStateNoCss).2.proj.globalsCss = none :=
  ⟨(add_styled_component_fails_without_global_stylesheet sampleCatalog "button"
      sampleStateNoCss [("index.tsx", "export const Button = 0"), ("styles.css", ".btn")] ".btn"
      rfl (Or.inl rfl) (by decide) (by decide) rfl).1,
   (add_styled_component_fails_without_global_stylesheet sampleCatalog "button"
      sampleStateNoCss [("index.tsx", "export const Button = 0"), ("styles.css", ".btn")] ".btn"
      rfl (Or.inl rfl) (by decide) (by decide) rfl).2.1⟩

end SoloUI
